import Mathlib

/-!
Shallow embedding of the japdash RSS-triggered action engine.

The definitions below are translated from the Python sources of the
repository (`rss_poller.py`, `app.py`, `api_clients/rss_client.py`,
`api_clients/llm_client.py`, `api_clients/jap_client.py`).  Timestamps are
modelled as integers (seconds); SQLite tables are modelled as lists of
records; network collaborators (RSS fetch, JAP order API, Flowise LLM,
service-rate cache, `random.randint`) are modelled as oracle functions
bundled in an `Env`.  Python dictionary lookups with `dict.get` defaults
are modelled with `Option` fields and `Option.getD` at the use site, and
Python string truthiness (`""` and `None` are falsy) is modelled
explicitly at each use site.
-/

namespace Japdash

/-- `str.lower()` on the character data (service names are ASCII here). -/
def lowerStr (s : String) : String := ⟨s.data.map Char.toLower⟩

/-- `str.strip()`: drop whitespace from both ends. -/
def trimStr (s : String) : String :=
  ⟨((s.data.dropWhile Char.isWhitespace).reverse.dropWhile Char.isWhitespace).reverse⟩

/-- Helper for substring containment over character lists. -/
def containsAux : List Char → List Char → Bool
  | [], sub => sub.isEmpty
  | c :: rest, sub => sub.isPrefixOf (c :: rest) || containsAux rest sub

/-- Python `sub in s` substring test. -/
def strContainsSub (s sub : String) : Bool := containsAux s.data sub.data

/-- One `<item>` of the upstream RSS XML document, as seen by
`rss_client.parse_rss_xml_feed`.  `pubDateParsed` is the result of the two
`strptime` attempts on the raw `pubDate` text: `some t` when one of the two
formats matched, `none` otherwise. -/
structure RawItem where
  title : String
  description : String
  link : String
  guid : String
  pubDateParsed : Option Int
deriving Repr, DecidableEq

/-- A post dictionary as produced by `rss_client.parse_rss_xml_feed`
(`title`/`description`/`link`/`guid`/`pub_date` keys) and consumed by the
poller.  The `url` and `date_published` fields model keys that other code
paths read via `dict.get`: the XML parser never sets them, so they default
to the falsy values `""` and `none`. -/
structure Post where
  title : String
  description : String
  link : String
  url : String
  guid : String
  pub_date : Option Int
  date_published : Option Int
deriving Repr, DecidableEq

/-- `rss_client.parse_rss_xml_feed`: map each XML item to a post dict.
The network fetch and XML parse are the caller-supplied `raw` list; a fetch
or parse failure is modelled at the call sites by the `Env.fetch` oracle
returning `none`. -/
def parse_rss_xml_feed (raw : List RawItem) : List Post :=
  raw.map fun r =>
    { title := r.title, description := r.description, link := r.link,
      url := "", guid := r.guid, pub_date := r.pubDateParsed,
      date_published := none }

/-- `rss_client.get_new_posts_from_xml_feed`: keep items with a parseable
publish date strictly newer than `since_date`. -/
def get_new_posts_from_xml_feed (raw : List RawItem) (since_date : Int) :
    List Post :=
  (parse_rss_xml_feed raw).filter fun p =>
    match p.pub_date with
    | some d => decide (since_date < d)
    | none => false

/-- Row of the `accounts` table (the columns the engine reads).  `url`,
`rss_feed_url`, `rss_last_post`, `rss_last_check` are nullable columns. -/
structure Account where
  id : Nat
  platform : String
  username : String
  url : Option String
  enabled : Bool
  rss_status : String
  rss_feed_url : Option String
  rss_last_post : Option Int
  rss_last_check : Option Int
deriving Repr, DecidableEq

/-- The JSON parameter bag of an action (`json.loads(action['parameters'])`).
Absent keys are `none`; `dict.get` defaults are applied at each use site,
mirroring the Python reads. -/
structure ActionParams where
  quantity : Option Nat
  use_range : Bool
  quantity_min : Option Nat
  quantity_max : Option Nat
  use_llm_generation : Bool
  comment_directives : Option String
  use_hashtags : Option Bool
  use_emojis : Option Bool
  custom_comments : Option String
deriving Repr, DecidableEq

/-- Row of the `actions` table. -/
structure ActionRec where
  id : Nat
  account_id : Nat
  jap_service_id : Nat
  service_name : String
  is_active : Bool
  parameters : ActionParams
deriving Repr, DecidableEq

/-- Row of the `rss_feeds` table (the columns the poller reads). -/
structure FeedRec where
  id : Nat
  account_id : Option Nat
  title : String
  rss_feed_url : String
  last_checked : Option Int
  last_post_date : Option Int
deriving Repr, DecidableEq

/-- Row of the `processed_posts` ledger; `UNIQUE(feed_id, post_guid)`. -/
structure PPRow where
  feed_id : Nat
  post_guid : String
  post_url : String
  post_title : String
  actions_triggered : Nat
deriving Repr, DecidableEq

/-- Row of the `execution_history` table (the columns the engine touches).
`target_url` is kept optional because the Python value can be `None` when
both the post and the account carry no URL. -/
structure ExecRecord where
  id : Nat
  jap_order_id : Nat
  execution_type : String
  platform : String
  target_url : Option String
  service_id : Nat
  service_name : String
  quantity : Nat
  cost : Int
  status : String
  account_id : Option Nat
  account_username : String
  created_at : Int
deriving Repr, DecidableEq

/-- Row of the `rss_poll_log` table. -/
structure PollLog where
  feed_id : Nat
  posts_found : Nat
  new_posts : Nat
  actions_triggered : Nat
  status : String
  error_message : Option String
deriving Repr, DecidableEq

/-- Row of the `screenshots` table (the columns the refresh path reads). -/
structure ScreenshotRow where
  id : Nat
  execution_id : Nat
  screenshot_type : String
  status : String
deriving Repr, DecidableEq

/-- The SQLite database state shared by the engine.  `next_exec_id` models
the `execution_history` AUTOINCREMENT counter. -/
structure DB where
  accounts : List Account
  actions : List ActionRec
  rss_feeds : List FeedRec
  processed_posts : List PPRow
  execution_history : List ExecRecord
  rss_poll_log : List PollLog
  screenshots : List ScreenshotRow
  next_exec_id : Nat
deriving Repr, DecidableEq

/-- Argument tuple of a `FlowiseClient.generate_comments` invocation. -/
structure LLMCall where
  post_content : String
  comment_count : Nat
  custom_input : String
  use_hashtags : Bool
  use_emojis : Bool
deriving Repr, DecidableEq

/-- Outcome of the Flowise HTTP request and response parsing, as an oracle:
`apiError` covers HTTP errors, timeouts and a missing `text` field;
`apiText` carries the comment list parsed out of the `text` field (already
filtered of blank lines by `_parse_comments_from_text`). -/
inductive LLMApi where
  | apiError (msg : String)
  | apiText (comments : List String)
deriving Repr, DecidableEq

/-- Result dictionary of `FlowiseClient.generate_comments`. -/
structure LLMResult where
  success : Bool
  comments : List String
  error : Option String
deriving Repr, DecidableEq

/-- `FlowiseClient.generate_comments` over the API oracle: any transport or
format error yields a failure result, and a parse that produced zero
comments is converted into the failure
`"No comments found in Flowise response"`; success always carries a
non-empty comment list. -/
def generate_comments (api : LLMCall → LLMApi) (c : LLMCall) : LLMResult :=
  match api c with
  | .apiError m => { success := false, comments := [], error := some m }
  | .apiText cs =>
    if cs.isEmpty then
      { success := false, comments := [],
        error := some "No comments found in Flowise response" }
    else { success := true, comments := cs, error := none }

/-- Argument tuple of a `JAPClient.create_order` invocation. -/
structure OrderReq where
  service_id : Nat
  link : Option String
  quantity : Nat
  custom_comments : Option String
deriving Repr, DecidableEq

/-- JAP API response to `create_order`: an order id or an error message. -/
inductive OrderResp where
  | ok (order : Nat)
  | err (msg : String)
deriving Repr, DecidableEq

/-- The ambient environment of one engine invocation: the wall clock, the
RSS fetch oracle (`none` models a fetch/parse exception), the
`random.randint` oracle, the Flowise API oracle, the JAP order API oracle
and the cached service-rate lookup used for cost estimation. -/
structure Env where
  now : Int
  fetch : String → Option (List RawItem)
  randint : Nat → Nat → Nat
  llm_api : LLMCall → LLMApi
  create_order : OrderReq → OrderResp
  service_rate : Nat → Option Int

/-- Target-URL resolution in `execute_rss_triggered_action`:
`post.get('link') or post.get('url') or account.get('url', ...)`.  The row
dictionary `dict(account)` always carries the `url` key, so the
platform-URL default inside `dict.get` is unreachable; the column value
itself may be SQL NULL, hence the `Option` result. -/
def resolve_target_url (post : Post) (account : Account) : Option String :=
  if post.link ≠ "" then some post.link
  else if post.url ≠ "" then some post.url
  else account.url

/-- `post.get('link') or post.get('url') or post.get('guid', '')`. -/
def post_identifier (post : Post) : String :=
  if post.link ≠ "" then post.link
  else if post.url ≠ "" then post.url
  else post.guid

/-- The duplicate-suppression query of `execute_rss_triggered_action`:
run only when the post carries an identifier; matches any history row with
the same account id, same JAP service id, the same (non-NULL) target URL
and `created_at > datetime('now', '-24 hours')`.  An SQL comparison with a
NULL target URL parameter matches nothing. -/
def duplicate_in_window (env : Env) (account : Account) (action : ActionRec)
    (post : Post) (history : List ExecRecord) : Bool :=
  if post_identifier post ≠ "" then
    history.any fun r =>
      decide (r.account_id = some account.id) &&
      decide (r.service_id = action.jap_service_id) &&
      (match resolve_target_url post account with
       | some u => decide (r.target_url = some u)
       | none => false) &&
      decide (env.now - 86400 < r.created_at)
  else false

/-- Quantity resolution: `parameters.get('quantity', 100)`, replaced by
`random.randint(quantity_min, quantity_max)` when `use_range` is set, the
range bounds defaulting to the fixed quantity. -/
def resolved_quantity (env : Env) (params : ActionParams) : Nat :=
  let q0 := params.quantity.getD 100
  if params.use_range then
    env.randint (params.quantity_min.getD q0) (params.quantity_max.getD q0)
  else q0

/-- `RSSPoller._is_comment_service_with_llm`: the service name contains
`"comment"` case-insensitively, LLM generation is enabled, and the comment
directives are non-empty after stripping. -/
def is_comment_service_with_llm (action : ActionRec) : Bool :=
  let service_name := lowerStr action.service_name
  let is_comment_service := strContainsSub service_name "comment"
  let llm_enabled := action.parameters.use_llm_generation
  let has_directives := trimStr (action.parameters.comment_directives.getD "") ≠ ""
  is_comment_service && llm_enabled && has_directives

/-- The argument tuple `RSSPoller._generate_comments_for_post` passes to
`FlowiseClient.generate_comments`: post content is `title + " " +
description` stripped, replaced by a synthesized string when empty; the
comment count is the resolved quantity clamped by
`max(1, min(quantity, 100))`; directives and flags come from the parameter
bag with their `dict.get` defaults. -/
def generate_comments_call (params : ActionParams) (post : Post)
    (account : Account) (quantity : Nat) : LLMCall :=
  let content := trimStr (post.title ++ " " ++ post.description)
  let post_content :=
    if content = "" then
      "New post from " ++ account.username ++ " on " ++ account.platform
    else content
  { post_content := post_content,
    comment_count := max 1 (min quantity 100),
    custom_input :=
      params.comment_directives.getD "Generate engaging and relevant comments",
    use_hashtags := params.use_hashtags.getD false,
    use_emojis := params.use_emojis.getD true }

/-- Result dictionary returned by `execute_rss_triggered_action`. -/
structure ExecResult where
  success : Bool
  error : Option String
  skipped : Bool
  order_id : Option Nat
deriving Repr, DecidableEq

/-- Outcome of one `execute_rss_triggered_action` call: the returned
dictionary, the updated `execution_history` table and autoincrement
counter, and — for observability of the external collaborators — the JAP
order requests and Flowise calls it made. -/
structure ExecOutcome where
  result : ExecResult
  history : List ExecRecord
  next_exec_id : Nat
  order_calls : List OrderReq
  llm_calls : List LLMCall
deriving Repr, DecidableEq

/-- `RSSPoller.execute_rss_triggered_action`: duplicate suppression, then
quantity resolution, then conditional LLM comment generation (abandoning
the action on failure), then the JAP order and the history insert.  The
REAL-typed cost estimate `(quantity / 1000) * rate` is modelled over
integers; no claim concerns the cost value. -/
def execute_rss_triggered_action (env : Env) (account : Account)
    (action : ActionRec) (post : Post) (history : List ExecRecord)
    (next_id : Nat) : ExecOutcome :=
  let params := action.parameters
  let target_url := resolve_target_url post account
  if duplicate_in_window env account action post history then
    { result := { success := false, error := some "Duplicate execution prevented",
                  skipped := true, order_id := none },
      history := history, next_exec_id := next_id,
      order_calls := [], llm_calls := [] }
  else
    let quantity := resolved_quantity env params
    let submit := fun (cc : Option String) (lcalls : List LLMCall) =>
      let req : OrderReq := { service_id := action.jap_service_id,
                              link := target_url, quantity := quantity,
                              custom_comments := cc }
      match env.create_order req with
      | .err e =>
        { result := { success := false, error := some e, skipped := false,
                      order_id := none },
          history := history, next_exec_id := next_id,
          order_calls := [req], llm_calls := lcalls }
      | .ok oid =>
        let estimated_cost :=
          match env.service_rate action.jap_service_id with
          | some r => (Int.ofNat quantity * r) / 1000
          | none => 0
        let row : ExecRecord :=
          { id := next_id, jap_order_id := oid, execution_type := "rss_trigger",
            platform := account.platform, target_url := target_url,
            service_id := action.jap_service_id,
            service_name := action.service_name, quantity := quantity,
            cost := estimated_cost, status := "pending",
            account_id := some account.id,
            account_username := account.username, created_at := env.now }
        { result := { success := true, error := none, skipped := false,
                      order_id := some oid },
          history := history ++ [row], next_exec_id := next_id + 1,
          order_calls := [req], llm_calls := lcalls }
    if is_comment_service_with_llm action then
      let call := generate_comments_call params post account quantity
      let res := generate_comments env.llm_api call
      if res.success then
        submit (some (String.intercalate "\n" res.comments)) [call]
      else
        { result := { success := false,
                      error := some ("LLM generation failed: " ++
                        res.error.getD "" ++ " - skipping action"),
                      skipped := true, order_id := none },
          history := history, next_exec_id := next_id,
          order_calls := [], llm_calls := [call] }
    else submit params.custom_comments []

/-- State threaded through `trigger_actions_for_post`. -/
structure TriggerOutcome where
  triggered : Nat
  history : List ExecRecord
  next_exec_id : Nat
deriving Repr, DecidableEq

/-- `RSSPoller.trigger_actions_for_post`: for an account-bound feed
(`if feed['account_id']:`, so `None` and `0` are both falsy), look the
account up, fetch its active actions and execute each one, counting the
successes; per-action exceptions are caught and do not abort the loop. -/
def trigger_actions_for_post (env : Env) (accounts : List Account)
    (actions : List ActionRec) (feed : FeedRec) (post : Post)
    (history : List ExecRecord) (next_id : Nat) : TriggerOutcome :=
  match feed.account_id with
  | none => { triggered := 0, history := history, next_exec_id := next_id }
  | some aid =>
    if aid = 0 then
      { triggered := 0, history := history, next_exec_id := next_id }
    else
      match accounts.find? fun a => a.id = aid with
      | none => { triggered := 0, history := history, next_exec_id := next_id }
      | some account =>
        let acts := actions.filter fun a =>
          decide (a.account_id = aid) && a.is_active
        acts.foldl
          (fun st act =>
            let out := execute_rss_triggered_action env account act post
              st.history st.next_exec_id
            { triggered := st.triggered + (if out.result.success then 1 else 0),
              history := out.history, next_exec_id := out.next_exec_id })
          { triggered := 0, history := history, next_exec_id := next_id }

/-- Per-feed processing state threaded over the candidate posts of one
`poll_single_feed` cycle. -/
structure FeedPollState where
  processed : List PPRow
  history : List ExecRecord
  next_exec_id : Nat
  truly_new : Nat
  actions_triggered : Nat
  latest_post_date : Int
deriving Repr, DecidableEq

/-- The stable item identity: `post.get('guid') or post.get('link', '')`. -/
def post_guid_of (post : Post) : String :=
  if post.guid ≠ "" then post.guid else post.link

/-- The `UNIQUE(feed_id, post_guid)` membership test: an INSERT into
`processed_posts` raises `sqlite3.IntegrityError` exactly when this is
true. -/
def ledger_claimed (l : List PPRow) (fid : Nat) (g : String) : Bool :=
  l.any fun r => decide (r.feed_id = fid) && decide (r.post_guid = g)

/-- The body of the per-post loop of `RSSPoller.poll_single_feed`
(lines 185-231): compute the stable identity `guid or link` and skip the
post when it is empty; attempt the INSERT into `processed_posts`, the
`UNIQUE(feed_id, post_guid)` violation (`sqlite3.IntegrityError`) being a
silent skip; on a fresh insert, count the post as truly new, fold its
`date_published` into the latest-post-date accumulator (the XML feed items
never carry that key), execute the actions and record their count on the
ledger row. -/
def process_post (env : Env) (accounts : List Account)
    (actions : List ActionRec) (feed : FeedRec) (st : FeedPollState)
    (post : Post) : FeedPollState :=
  let post_guid := post_guid_of post
  if post_guid = "" then st
  else if ledger_claimed st.processed feed.id post_guid then
    st
  else
    let inserted := st.processed ++
      [{ feed_id := feed.id, post_guid := post_guid, post_url := post.link,
         post_title := post.title, actions_triggered := 0 }]
    let latest :=
      match post.date_published with
      | some d => if st.latest_post_date < d then d else st.latest_post_date
      | none => st.latest_post_date
    let t := trigger_actions_for_post env accounts actions feed post
      st.history st.next_exec_id
    let updated := inserted.map fun r =>
      if decide (r.feed_id = feed.id) && decide (r.post_guid = post_guid) then
        { r with actions_triggered := t.triggered }
      else r
    { processed := updated, history := t.history,
      next_exec_id := t.next_exec_id, truly_new := st.truly_new + 1,
      actions_triggered := st.actions_triggered + t.triggered,
      latest_post_date := latest }

/-- Per-feed result dictionary of `poll_single_feed`. -/
structure FeedResult where
  feed_id : Nat
  posts_found : Nat
  new_posts : Nat
  actions_triggered : Nat
  status : String
deriving Repr, DecidableEq

/-- The `since_date` selection of `poll_single_feed`: the watermark if
present, else `last_checked`, else `now - 24h`. -/
def poll_since_date (env : Env) (feed : FeedRec) : Int :=
  match feed.last_post_date with
  | some d => d
  | none =>
    match feed.last_checked with
    | some c => c
    | none => env.now - 86400

/-- The per-post loop of `poll_single_feed` as a fold over the candidate
posts surfaced by the watermark filter. -/
def poll_fold (env : Env) (db : DB) (feed : FeedRec) (raw : List RawItem) :
    FeedPollState :=
  let since_date := poll_since_date env feed
  (get_new_posts_from_xml_feed raw since_date).foldl
    (process_post env db.accounts db.actions feed)
    { processed := db.processed_posts, history := db.execution_history,
      next_exec_id := db.next_exec_id, truly_new := 0,
      actions_triggered := 0, latest_post_date := since_date }

/-- The feed-metadata UPDATE at the end of `poll_single_feed`: when at
least one truly-new post was claimed, advance `last_post_date` to the
accumulated latest post date plus one second; always refresh
`last_checked`. -/
def advance_feed_rows (env : Env) (feed : FeedRec) (truly_new : Nat)
    (latest : Int) (feeds : List FeedRec) : List FeedRec :=
  if truly_new > 0 then
    feeds.map fun f =>
      if f.id = feed.id then
        { f with last_checked := some env.now,
                 last_post_date := some (latest + 1) }
      else f
  else
    feeds.map fun f =>
      if f.id = feed.id then { f with last_checked := some env.now } else f

/-- The main body of `RSSPoller.poll_single_feed` once the feed content
`raw` has been fetched: count all items, filter the candidates newer than
the watermark, run the per-post loop, update the feed metadata and append
the poll-log row. -/
def poll_single_feed_core (env : Env) (db : DB) (feed : FeedRec)
    (raw : List RawItem) : DB × FeedResult :=
  let total_posts_count := (parse_rss_xml_feed raw).length
  let st := poll_fold env db feed raw
  let feeds := advance_feed_rows env feed st.truly_new st.latest_post_date
    db.rss_feeds
  let status := if st.truly_new = 0 then "no_new_posts" else "success"
  let log : PollLog :=
    { feed_id := feed.id, posts_found := total_posts_count,
      new_posts := st.truly_new, actions_triggered := st.actions_triggered,
      status := status, error_message := none }
  ({ db with processed_posts := st.processed,
             execution_history := st.history, next_exec_id := st.next_exec_id,
             rss_feeds := feeds, rss_poll_log := db.rss_poll_log ++ [log] },
   { feed_id := feed.id, posts_found := total_posts_count,
     new_posts := st.truly_new, actions_triggered := st.actions_triggered,
     status := status })

/-- The account lookup at the top of `poll_single_feed`: the feed URL comes
from the bound account row, and both a missing account and a NULL or empty
`rss_feed_url` raise. -/
def account_feed_url (db : DB) (feed : FeedRec) : Option String :=
  match feed.account_id with
  | none => none
  | some aid =>
    match db.accounts.find? fun a => a.id = aid with
    | none => none
    | some account =>
      if account.rss_feed_url.getD "" = "" then none else account.rss_feed_url

/-- `RSSPoller.poll_single_feed`: raised exceptions are modelled as
`Except.error` with the corresponding message. -/
def poll_single_feed (env : Env) (db : DB) (feed : FeedRec) :
    Except String (DB × FeedResult) :=
  match account_feed_url db feed with
  | none => .error "No RSS feed URL found for account"
  | some u =>
    match env.fetch u with
    | none => .error "Failed to check for new posts"
    | some raw => .ok (poll_single_feed_core env db feed raw)

/-- The WHERE clause of the feed-selection query in
`RSSPoller.poll_all_feeds`: INNER JOIN on the bound account, feed-binding
status `active`, account enabled, non-NULL watermark, and at least one
active action for the account. -/
def feed_eligible (db : DB) (f : FeedRec) : Bool :=
  match f.account_id with
  | none => false
  | some aid =>
    match db.accounts.find? fun a => a.id = aid with
    | none => false
    | some a =>
      decide (a.rss_status = "active") && a.enabled &&
      f.last_post_date.isSome &&
      db.actions.any fun act => decide (act.account_id = aid) && act.is_active

/-- `ORDER BY rf.last_checked ASC NULLS FIRST`. -/
def last_checked_le (f g : FeedRec) : Bool :=
  match f.last_checked, g.last_checked with
  | none, _ => true
  | some _, none => false
  | some a, some b => decide (a ≤ b)

/-- Sorted insertion for the `ORDER BY` modelling below. -/
def insert_by_last_checked (f : FeedRec) : List FeedRec → List FeedRec
  | [] => [f]
  | g :: t =>
    if last_checked_le f g then f :: g :: t else g :: insert_by_last_checked f t

/-- Stable sort of the selected feeds by `last_checked ASC NULLS FIRST`. -/
def sort_by_last_checked : List FeedRec → List FeedRec
  | [] => []
  | f :: t => insert_by_last_checked f (sort_by_last_checked t)

/-- The feed list fetched at the top of `poll_all_feeds`. -/
def selected_feeds (db : DB) : List FeedRec :=
  sort_by_last_checked (db.rss_feeds.filter (feed_eligible db))

/-- Aggregate summary returned by `poll_all_feeds`. -/
structure PollSummary where
  total_feeds : Nat
  feeds_processed : Nat
  total_new_posts : Nat
  total_actions_triggered : Nat
  errors : List String
deriving Repr, DecidableEq

/-- One iteration of the feed loop in `RSSPoller.poll_all_feeds`: a
per-feed error is caught, appended to the error list and logged as an
`error` poll-log row without aborting the remaining feeds. -/
def poll_all_step (env : Env) (acc : DB × PollSummary) (feed : FeedRec) :
    DB × PollSummary :=
  let d := acc.1
  let s := acc.2
  match poll_single_feed env d feed with
  | .ok (db', r) =>
    (db',
     { s with
         feeds_processed := s.feeds_processed + 1,
         total_new_posts := s.total_new_posts + r.new_posts,
         total_actions_triggered :=
           s.total_actions_triggered + r.actions_triggered })
  | .error e =>
    let msg := "Feed " ++ toString feed.id ++ " (" ++ feed.title ++ "): " ++ e
    let log : PollLog :=
      { feed_id := feed.id, posts_found := 0, new_posts := 0,
        actions_triggered := 0, status := "error",
        error_message := some msg }
    ({ d with rss_poll_log := d.rss_poll_log ++ [log] },
     { s with errors := s.errors ++ [msg] })

/-- `RSSPoller.poll_all_feeds` as the sequential fold of `poll_all_step`
over the selected feeds. -/
def poll_all_feeds (env : Env) (db : DB) : DB × PollSummary :=
  let feeds := selected_feeds db
  feeds.foldl (poll_all_step env)
    (db, { total_feeds := feeds.length, feeds_processed := 0,
           total_new_posts := 0, total_actions_triggered := 0, errors := [] })

/-- Any number of `poll_all_feeds` cycles, each under its own environment
(clock, feed contents, oracle outcomes). -/
def run_polls (envs : List Env) (db : DB) : DB :=
  envs.foldl (fun d e => (poll_all_feeds e d).1) db

/-- One step of the latest-post search in
`establish_baseline_for_account`: `latest` is replaced whenever an item
has a parseable date strictly greater than it. -/
def latest_step (acc : Option Int) (it : Post) : Option Int :=
  match it.pub_date, acc with
  | some d, none => some d
  | some d, some m => if m < d then some d else some m
  | none, _ => acc

/-- The maximum over the parseable publish dates of a post list, as
computed by the loop in `establish_baseline_for_account`: `latest` starts
as `None`. -/
def latest_parseable_date (items : List Post) : Option Int :=
  items.foldl latest_step none

/-- Result of `establish_baseline_for_account`. -/
inductive BaselineResult where
  | failure (error : String)
  | ok (latest_post_date : Int) (posts_count : Nat)
deriving Repr, DecidableEq

/-- `RSSPoller.establish_baseline_for_account`: look the account up, parse
its feed, compute the max parseable publish date, and store it as both the
account watermark (`rss_last_post`) and the feed watermark
(`last_post_date` on every feed row bound to the account); when no item
has a parseable date, store `now` instead (and report a post count of 0,
as the Python literal does). -/
def establish_baseline_for_account (env : Env) (db : DB) (account_id : Nat) :
    DB × BaselineResult :=
  match db.accounts.find? fun a => a.id = account_id with
  | none => (db, .failure "Account not found")
  | some account =>
    if account.rss_feed_url.getD "" = "" then
      (db, .failure "No RSS feed URL configured")
    else
      match env.fetch (account.rss_feed_url.getD "") with
      | none => (db, .failure "Failed to parse RSS feed")
      | some raw =>
        let items := parse_rss_xml_feed raw
        let posts_count := items.length
        match latest_parseable_date items with
        | some d =>
          ({ db with
               accounts := db.accounts.map fun a =>
                 if a.id = account_id then
                   { a with rss_last_post := some d,
                            rss_last_check := some env.now }
                 else a,
               rss_feeds := db.rss_feeds.map fun f =>
                 if f.account_id = some account_id then
                   { f with last_post_date := some d,
                            last_checked := some env.now }
                 else f },
           .ok d posts_count)
        | none =>
          ({ db with
               accounts := db.accounts.map fun a =>
                 if a.id = account_id then
                   { a with rss_last_post := some env.now,
                            rss_last_check := some env.now }
                 else a,
               rss_feeds := db.rss_feeds.map fun f =>
                 if f.account_id = some account_id then
                   { f with last_post_date := some env.now,
                            last_checked := some env.now }
                 else f },
           .ok env.now 0)

/-- The watermark `establish_baseline_for_account` ends up storing for a
feed with content `raw`: the max parseable publish date, else `now`. -/
def baseline_watermark (env : Env) (raw : List RawItem) : Int :=
  (latest_parseable_date (parse_rss_xml_feed raw)).getD env.now

/-- JAP `get_order_status` response as consumed by the status-refresh
route: an error dictionary, or a status string together with the optional
`charge`/`cost` field. -/
inductive JapStatusResp where
  | err (msg : String)
  | ok (status : String) (charge : Option Int)
deriving Repr, DecidableEq

/-- Outcome of one `refresh_execution_status` request:
`capture_initiated` records whether the handler dispatched the background
"after"-screenshot capture. -/
structure RefreshOutcome where
  db : DB
  http_error : Bool
  capture_initiated : Bool
deriving Repr

/-- `app.refresh_execution_status` (the core-relevant part): read the old
execution row, write the lower-cased new status (and the cost when the JAP
response carries one) to every matching history row, and initiate an
"after" screenshot capture exactly when the old status was not `completed`,
the new status is `completed`, and no completed `after` screenshot row
exists for the execution. -/
def refresh_execution_status (db : DB) (jap_order_id : Nat)
    (resp : JapStatusResp) : RefreshOutcome :=
  match resp with
  | .err _ => { db := db, http_error := true, capture_initiated := false }
  | .ok raw_status charge =>
    let new_status := lowerStr raw_status
    let old_execution :=
      db.execution_history.find? fun r => r.jap_order_id = jap_order_id
    let history := db.execution_history.map fun r =>
      if r.jap_order_id = jap_order_id then
        match charge with
        | some c => { r with status := new_status, cost := c }
        | none => { r with status := new_status }
      else r
    let capture :=
      match old_execution with
      | none => false
      | some old =>
        if old.status ≠ "completed" && new_status = "completed" then
          ! db.screenshots.any fun s =>
              decide (s.execution_id = old.id) &&
              decide (s.screenshot_type = "after") &&
              decide (s.status = "completed")
        else false
    { db := { db with execution_history := history },
      http_error := false, capture_initiated := capture }

/-- Projection helpers for stating facts about a poll outcome. -/
def after_db (x : Except String (DB × FeedResult)) : Option DB :=
  match x with
  | .ok (d, _) => some d
  | .error _ => none

/-- The per-feed result of a successful poll, if any. -/
def after_result (x : Except String (DB × FeedResult)) : Option FeedResult :=
  match x with
  | .ok (_, r) => some r
  | .error _ => none

/-- The stored watermark of the feed row with the given id. -/
def feed_watermark (db : DB) (fid : Nat) : Option Int :=
  match db.rss_feeds.find? fun f => f.id = fid with
  | some f => f.last_post_date
  | none => none

/-- The ledger key of a `processed_posts` row: the
`UNIQUE(feed_id, post_guid)` pair. -/
def ledger_keys (l : List PPRow) : List (Nat × String) :=
  l.map fun r => (r.feed_id, r.post_guid)

/-- The ledger holds at most one row per key. -/
def ledger_unique (l : List PPRow) : Prop := (ledger_keys l).Nodup

/-- Number of ledger rows carrying a given (feed, item-identity) key. -/
def count_rows (l : List PPRow) (fid : Nat) (g : String) : Nat :=
  (l.filter fun r => decide (r.feed_id = fid) && decide (r.post_guid = g)).length

/-- The single feed item of the section-8 scenario: published 10 seconds
after the watermark `T0 = 1000`, with permalink `L1`. -/
def s8_item : RawItem :=
  { title := "p1", description := "", link := "L1", guid := "G1",
    pubDateParsed := some 1010 }

/-- Scenario environment: the feed URL `F` serves exactly `s8_item`, the
JAP API accepts the order. -/
def s8_env : Env :=
  { now := 2000,
    fetch := fun u => if u = "F" then some [s8_item] else none,
    randint := fun a _ => a,
    llm_api := fun _ => .apiError "unavailable",
    create_order := fun _ => .ok 777,
    service_rate := fun _ => none }

/-- Scenario account A. -/
def s8_account : Account :=
  { id := 1, platform := "Instagram", username := "alice",
    url := some "https://www.instagram.com/alice", enabled := true,
    rss_status := "active", rss_feed_url := some "F",
    rss_last_post := some 1000, rss_last_check := some 900 }

/-- Scenario action A1: service 100, fixed quantity 5, no LLM. -/
def s8_action : ActionRec :=
  { id := 1, account_id := 1, jap_service_id := 100,
    service_name := "Followers", is_active := true,
    parameters :=
      { quantity := some 5, use_range := false, quantity_min := none,
        quantity_max := none, use_llm_generation := false,
        comment_directives := none, use_hashtags := none,
        use_emojis := none, custom_comments := none } }

/-- Scenario feed F with watermark `T0 = 1000`. -/
def s8_feed : FeedRec :=
  { id := 1, account_id := some 1, title := "alice feed",
    rss_feed_url := "F", last_checked := some 900,
    last_post_date := some 1000 }

/-- Scenario database. -/
def s8_db : DB :=
  { accounts := [s8_account], actions := [s8_action], rss_feeds := [s8_feed],
    processed_posts := [], execution_history := [], rss_poll_log := [],
    screenshots := [], next_exec_id := 1 }

/-- The scenario poll cycle. -/
def s8_poll : Except String (DB × FeedResult) :=
  poll_single_feed s8_env s8_db s8_feed

/-- An environment in which every collaborator is inert; used to
instantiate universally quantified theorems at a concrete input. -/
def plain_env : Env :=
  { now := 0, fetch := fun _ => none, randint := fun a _ => a,
    llm_api := fun _ => .apiError "unavailable",
    create_order := fun _ => .err "unavailable",
    service_rate := fun _ => none }

/-- A post whose GUID and permalink are both empty. -/
def empty_post : Post :=
  { title := "t", description := "d", link := "", url := "", guid := "",
    pub_date := some 50, date_published := none }

/-- A mid-cycle per-feed processing state with one prior ledger row. -/
def mid_state : FeedPollState :=
  { processed := [{ feed_id := 1, post_guid := "G0", post_url := "L0",
                    post_title := "p0", actions_triggered := 1 }],
    history := [], next_exec_id := 4, truly_new := 1,
    actions_triggered := 1, latest_post_date := 1000 }

/-- A post whose identity `G0` is already present in `mid_state`'s
ledger. -/
def claimed_post : Post :=
  { title := "p0", description := "", link := "L0", url := "", guid := "G0",
    pub_date := some 990, date_published := none }

/-- An execution record that is still `pending`, awaiting refresh. -/
def c7_exec : ExecRecord :=
  { id := 3, jap_order_id := 42, execution_type := "rss_trigger",
    platform := "Instagram", target_url := some "L1", service_id := 100,
    service_name := "Followers", quantity := 5, cost := 0,
    status := "pending", account_id := some 1, account_username := "alice",
    created_at := 500 }

/-- A database holding that single pending execution and no screenshots. -/
def c7_db : DB :=
  { accounts := [], actions := [], rss_feeds := [], processed_posts := [],
    execution_history := [c7_exec], rss_poll_log := [], screenshots := [],
    next_exec_id := 4 }

/-- Environment whose JAP API accepts orders; clock at 1000. -/
def c4_env : Env :=
  { now := 1000, fetch := fun _ => none, randint := fun a _ => a,
    llm_api := fun _ => .apiError "unavailable",
    create_order := fun _ => .ok 778, service_rate := fun _ => none }

/-- A history row for the same account, service and target URL written 100
seconds ago — well within the 24-hour window. -/
def c4_prior : ExecRecord :=
  { id := 7, jap_order_id := 5, execution_type := "rss_trigger",
    platform := "Instagram",
    target_url := some "https://www.instagram.com/alice", service_id := 100,
    service_name := "Followers", quantity := 5, cost := 0,
    status := "pending", account_id := some 1, account_username := "alice",
    created_at := 900 }

/-- The executor outcome on a post with no link, no url and no guid, with
the matching in-window history row present. -/
def c4_out : ExecOutcome :=
  execute_rss_triggered_action c4_env s8_account s8_action empty_post
    [c4_prior] 10

/-- A post carrying a permalink, targeting the same URL as `c4_prior2`. -/
def c4_post2 : Post :=
  { title := "p", description := "", link := "L1", url := "", guid := "G1",
    pub_date := some 1010, date_published := none }

/-- An in-window history row matching `c4_post2`'s target URL. -/
def c4_prior2 : ExecRecord :=
  { id := 8, jap_order_id := 6, execution_type := "rss_trigger",
    platform := "Instagram", target_url := some "L1", service_id := 100,
    service_name := "Followers", quantity := 5, cost := 0,
    status := "pending", account_id := some 1, account_username := "alice",
    created_at := 900 }

/-- A comment-type action with LLM generation enabled, non-empty
directives, and a fixed quantity of 150. -/
def c9_action : ActionRec :=
  { id := 2, account_id := 1, jap_service_id := 300,
    service_name := "Instagram Comments", is_active := true,
    parameters :=
      { quantity := some 150, use_range := false, quantity_min := none,
        quantity_max := none, use_llm_generation := true,
        comment_directives := some "be nice", use_hashtags := some false,
        use_emojis := some true, custom_comments := none } }

/-- Environment whose LLM oracle generates one comment. -/
def c9_env : Env :=
  { now := 1000, fetch := fun _ => none, randint := fun a _ => a,
    llm_api := fun _ => .apiText ["great post"],
    create_order := fun _ => .ok 779, service_rate := fun _ => none }

/-- The executor outcome for the quantity-150 comment action. -/
def c9_out : ExecOutcome :=
  execute_rss_triggered_action c9_env s8_account c9_action c4_post2 [] 20

/-- The execution record the scenario cycle writes. -/
def s8_exec_row : ExecRecord :=
  { id := 1, jap_order_id := 777, execution_type := "rss_trigger",
    platform := "Instagram", target_url := some "L1", service_id := 100,
    service_name := "Followers", quantity := 5, cost := 0,
    status := "pending", account_id := some 1, account_username := "alice",
    created_at := 2000 }

/-- The database state after the scenario cycle. -/
def s8_db_after : DB :=
  { accounts := [s8_account], actions := [s8_action],
    rss_feeds := [{ id := 1, account_id := some 1, title := "alice feed",
                    rss_feed_url := "F", last_checked := some 2000,
                    last_post_date := some 1001 }],
    processed_posts := [{ feed_id := 1, post_guid := "G1", post_url := "L1",
                          post_title := "p1", actions_triggered := 1 }],
    execution_history := [s8_exec_row],
    rss_poll_log := [{ feed_id := 1, posts_found := 1, new_posts := 1,
                       actions_triggered := 1, status := "success",
                       error_message := none }],
    screenshots := [], next_exec_id := 2 }

/-- The per-feed result of the scenario cycle. -/
def s8_result : FeedResult :=
  { feed_id := 1, posts_found := 1, new_posts := 1, actions_triggered := 1,
    status := "success" }

/-- The scenario feed as baselined at the single item's publish date. -/
def c6_feed : FeedRec :=
  { id := 1, account_id := some 1, title := "alice feed",
    rss_feed_url := "F", last_checked := some 2000,
    last_post_date := some 1010 }

/-- Environment whose LLM oracle fails. -/
def c5_env : Env :=
  { now := 1000, fetch := fun _ => none, randint := fun a _ => a,
    llm_api := fun _ => .apiError "boom",
    create_order := fun _ => .ok 780, service_rate := fun _ => none }

end Japdash

namespace Japdash

/-- Sorted insertion does not change the members of the feed list. -/
theorem mem_insert_by_last_checked {x f : FeedRec} {l : List FeedRec} :
    x ∈ insert_by_last_checked f l ↔ x = f ∨ x ∈ l := by
  induction l with
  | nil => simp [insert_by_last_checked]
  | cons g t ih =>
    unfold insert_by_last_checked
    split
    · simp [List.mem_cons]
    · simp only [List.mem_cons, ih]
      tauto

/-- Sorting by `last_checked` does not change the members. -/
theorem mem_sort_by_last_checked {x : FeedRec} {l : List FeedRec} :
    x ∈ sort_by_last_checked l ↔ x ∈ l := by
  induction l with
  | nil => exact Iff.rfl
  | cons f t ih =>
    simp [sort_by_last_checked, mem_insert_by_last_checked, ih, List.mem_cons]

/-- With distinct account ids, the id lookup finds exactly the member. -/
theorem find?_account_by_id {l : List Account} {a : Account}
    (hids : (l.map Account.id).Nodup) (ha : a ∈ l) :
    l.find? (fun x => x.id = a.id) = some a := by
  induction l with
  | nil => cases ha
  | cons b t ih =>
    simp only [List.map_cons, List.nodup_cons] at hids
    rcases List.mem_cons.mp ha with rfl | h
    · simp [List.find?]
    · have hne : (decide (b.id = a.id)) = false := by
        simp only [decide_eq_false_iff_not]
        intro he
        exact hids.1 (he ▸ List.mem_map_of_mem Account.id h)
      rw [List.find?_cons_of_neg _ (by simp_all), ih hids.2 h]

/-- C3: a feed is selected by `poll_all_feeds` if and only if its bound
account has `rss_status = "active"`, is enabled, the feed watermark is
non-null, and the account has at least one active action: the four gate
conditions of the selection query, no fewer and no more. -/
theorem c3_gating_iff (db : DB) (f : FeedRec) (a : Account)
    (hids : (db.accounts.map Account.id).Nodup)
    (hf : f ∈ db.rss_feeds) (ha : a ∈ db.accounts)
    (hbind : f.account_id = some a.id) :
    f ∈ selected_feeds db ↔
      (a.rss_status = "active" ∧ a.enabled = true ∧ f.last_post_date ≠ none ∧
       ∃ act ∈ db.actions, act.account_id = a.id ∧ act.is_active = true) := by
  unfold selected_feeds
  rw [mem_sort_by_last_checked, List.mem_filter]
  unfold feed_eligible
  rw [hbind]
  simp [find?_account_by_id hids ha, hf, Bool.and_eq_true, List.any_eq_true,
    Option.isSome_iff_ne_none, and_assoc]

/-- Witness: the scenario feed meets all four gate conditions and is
selected. -/
theorem c3_gating_iff_witness :
    s8_feed ∈ selected_feeds s8_db ↔
      (s8_account.rss_status = "active" ∧ s8_account.enabled = true ∧
       s8_feed.last_post_date ≠ none ∧
       ∃ act ∈ s8_db.actions, act.account_id = s8_account.id ∧
         act.is_active = true) :=
  c3_gating_iff s8_db s8_feed s8_account (by decide) (by decide) (by decide)
    rfl

/-- C4 counterexample: a trigger for a post that carries no link, no url
and no guid bypasses the duplicate-suppression query entirely — even
though the history already holds a row with the same account, the same
service id and the same resolved target URL created 100 seconds earlier,
the call succeeds, a JAP order is created, and a second ExecutionRecord is
inserted. -/
theorem c4_counterexample :
    (∃ r ∈ [c4_prior], r.account_id = some s8_account.id ∧
       r.service_id = s8_action.jap_service_id ∧
       r.target_url = resolve_target_url empty_post s8_account ∧
       c4_env.now - 86400 < r.created_at) ∧
    c4_out.result.skipped = false ∧ c4_out.result.success = true ∧
    c4_out.order_calls ≠ [] ∧
    c4_out.history.length = 2 := by decide

/-- C4 (amended): provided the triggering post carries an identifier
(link, url or guid) and its resolved target URL is non-null, an in-window
ExecutionHistory row with the same account, the same service id and the
same target URL makes `execute_rss_triggered_action` return
`{success: false, skipped: true}` without calling the order service and
without touching the history — hence a second trigger attempt for the same
account, service and target URL within 24 hours inserts no second row. -/
theorem c4_duplicate_suppression (env : Env) (account : Account)
    (action : ActionRec) (post : Post) (history : List ExecRecord)
    (next_id : Nat) (turl : String)
    (hid : post_identifier post ≠ "")
    (hturl : resolve_target_url post account = some turl)
    (hdup : ∃ r ∈ history, r.account_id = some account.id ∧
      r.service_id = action.jap_service_id ∧ r.target_url = some turl ∧
      env.now - 86400 < r.created_at) :
    execute_rss_triggered_action env account action post history next_id =
      { result := { success := false,
                    error := some "Duplicate execution prevented",
                    skipped := true, order_id := none },
        history := history, next_exec_id := next_id,
        order_calls := [], llm_calls := [] } := by
  have hdupb : duplicate_in_window env account action post history = true := by
    unfold duplicate_in_window
    rw [if_pos hid, List.any_eq_true]
    obtain ⟨r, hr, h1, h2, h3, h4⟩ := hdup
    refine ⟨r, hr, ?_⟩
    simp [hturl, h1, h2, h3, h4]
  unfold execute_rss_triggered_action
  rw [hdupb]
  simp

/-- Witness: with a linked post and a matching in-window row, the call is
suppressed. -/
theorem c4_duplicate_suppression_witness :
    execute_rss_triggered_action c4_env s8_account s8_action c4_post2
      [c4_prior2] 10 =
      { result := { success := false,
                    error := some "Duplicate execution prevented",
                    skipped := true, order_id := none },
        history := [c4_prior2], next_exec_id := 10,
        order_calls := [], llm_calls := [] } :=
  c4_duplicate_suppression c4_env s8_account s8_action c4_post2 [c4_prior2]
    10 "L1" (by decide) (by decide) (by decide)

/-- C5: for a comment-type action with LLM generation enabled and
non-empty directives, when the comment generation fails — which covers
both a generator error and a parse that yielded zero comments, since the
client converts an empty comment list into a failure — the executor
abandons the action: it returns `skipped = true` with an error describing
the LLM failure, makes no order-service call, and inserts no
ExecutionRecord. -/
theorem c5_llm_hard_fail (env : Env) (account : Account) (action : ActionRec)
    (post : Post) (history : List ExecRecord) (next_id : Nat)
    (hllm : is_comment_service_with_llm action = true)
    (hnd : duplicate_in_window env account action post history = false)
    (hfail : (generate_comments env.llm_api
      (generate_comments_call action.parameters post account
        (resolved_quantity env action.parameters))).success = false) :
    execute_rss_triggered_action env account action post history next_id =
      { result := { success := false,
                    error := some ("LLM generation failed: " ++
                      (generate_comments env.llm_api
                        (generate_comments_call action.parameters post account
                          (resolved_quantity env action.parameters))).error.getD ""
                      ++ " - skipping action"),
                    skipped := true, order_id := none },
        history := history, next_exec_id := next_id,
        order_calls := [],
        llm_calls := [generate_comments_call action.parameters post account
          (resolved_quantity env action.parameters)] } := by
  unfold execute_rss_triggered_action
  simp [hnd, hllm, hfail]

/-- Witness: the failing generator makes the comment action abandon with
no order call and no insert. -/
theorem c5_llm_hard_fail_witness :
    execute_rss_triggered_action c5_env s8_account c9_action c4_post2 [] 30 =
      { result := { success := false,
                    error := some "LLM generation failed: boom - skipping action",
                    skipped := true, order_id := none },
        history := [], next_exec_id := 30,
        order_calls := [],
        llm_calls := [generate_comments_call c9_action.parameters c4_post2
          s8_account (resolved_quantity c5_env c9_action.parameters)] } :=
  c5_llm_hard_fail c5_env s8_account c9_action c4_post2 [] 30 (by decide)
    (by decide) (by decide)

/-- C9 counterexample: with a fixed quantity of 150 on a comment-type LLM
action, the executor calls the comment generator with a requested count of
100, not the resolved quantity 150 — the count is clamped by
`max(1, min(quantity, 100))`, so "for every resolved quantity" fails. -/
theorem c9_counterexample :
    resolved_quantity c9_env c9_action.parameters = 150 ∧
    c9_out.llm_calls.map LLMCall.comment_count = [100] ∧
    c9_out.llm_calls.map LLMCall.comment_count ≠
      [resolved_quantity c9_env c9_action.parameters] := by decide

/-- C9 (amended): when comment generation is triggered (comment-type
service, LLM enabled, non-empty directives) and the duplicate check does
not fire, the executor makes exactly one CommentGenerator call, whose
arguments are those of `generate_comments_call`: the resolved quantity
clamped to `max(1, min(quantity, 100))` as the requested comment count,
the directives and the hashtag/emoji flags from the parameter bag, and the
post title+description content — or the synthesized "New post from X on Y"
string when that content is empty. -/
theorem c9_llm_call (env : Env) (account : Account) (action : ActionRec)
    (post : Post) (history : List ExecRecord) (next_id : Nat)
    (hllm : is_comment_service_with_llm action = true)
    (hnd : duplicate_in_window env account action post history = false) :
    (execute_rss_triggered_action env account action post history
        next_id).llm_calls =
      [generate_comments_call action.parameters post account
        (resolved_quantity env action.parameters)] ∧
    (generate_comments_call action.parameters post account
        (resolved_quantity env action.parameters)).comment_count =
      max 1 (min (resolved_quantity env action.parameters) 100) := by
  refine ⟨?_, rfl⟩
  unfold execute_rss_triggered_action
  simp only [hnd, hllm, Bool.false_eq_true, if_false, if_true]
  split
  · split <;> rfl
  · rfl

/-- Witness: the quantity-150 comment action produces exactly one
generator call with the clamped count. -/
theorem c9_llm_call_witness :
    c9_out.llm_calls =
      [generate_comments_call c9_action.parameters c4_post2 s8_account
        (resolved_quantity c9_env c9_action.parameters)] ∧
    (generate_comments_call c9_action.parameters c4_post2 s8_account
        (resolved_quantity c9_env c9_action.parameters)).comment_count =
      max 1 (min (resolved_quantity c9_env c9_action.parameters) 100) :=
  c9_llm_call c9_env s8_account c9_action c4_post2 [] 20 (by decide)
    (by decide)

/-- C2: in the section-8 scenario (feed watermark T0 = 1000, one item
published at T0+10s = 1010 with link L1, action of service 100 and fixed
quantity 5), the cycle does insert ProcessedPost(F, P1) once, trigger one
action with quantity 5 and target L1, and log status success with
new_posts = 1 and actions_triggered = 1 — but the feed watermark becomes
T0+1s = 1001, not T0+11s = 1011 as the spec states: the per-post loop
reads the `date_published` key while the XML feed items carry their
publish date under `pub_date`, so the latest-post-date accumulator never
moves off `since_date`. -/
theorem c2_watermark_scenario :
    (after_result s8_poll) =
      some { feed_id := 1, posts_found := 1, new_posts := 1,
             actions_triggered := 1, status := "success" } ∧
    (after_db s8_poll).map (fun d => d.processed_posts.map PPRow.post_guid) =
      some ["G1"] ∧
    (after_db s8_poll).map
        (fun d => d.execution_history.map ExecRecord.quantity) = some [5] ∧
    (after_db s8_poll).map
        (fun d => d.execution_history.map ExecRecord.target_url) =
      some [some "L1"] ∧
    (after_db s8_poll).map (fun d => feed_watermark d 1) = some (some 1001) ∧
    (after_db s8_poll).map (fun d => feed_watermark d 1) ≠ some (some 1011) := by
  decide

/-- C10: a feed item whose GUID and permalink are both empty is skipped
entirely by the per-post loop: the processing state — ledger, execution
history, autoincrement counter, truly-new and triggered counters, and the
latest-post-date accumulator — is returned unchanged. -/
theorem c10_empty_identity_frame (env : Env) (accounts : List Account)
    (actions : List ActionRec) (feed : FeedRec) (st : FeedPollState)
    (post : Post) (hg : post.guid = "") (hl : post.link = "") :
    process_post env accounts actions feed st post = st := by
  simp [process_post, post_guid_of, hg, hl]

/-- Witness: the empty-identity post leaves a concrete mid-cycle state
untouched. -/
theorem c10_empty_identity_frame_witness :
    empty_post.guid = "" ∧ empty_post.link = "" ∧
    process_post plain_env [s8_account] [s8_action] s8_feed mid_state
      empty_post = mid_state :=
  ⟨rfl, rfl,
   c10_empty_identity_frame plain_env [s8_account] [s8_action] s8_feed
     mid_state empty_post rfl rfl⟩

/-- C7: during a status refresh of an existing execution row, the "after"
screenshot capture is initiated if and only if the row's status was not
already `completed`, the refreshed status is `completed`, and no completed
`after` screenshot row exists for that execution; and the refresh handler
itself never touches the screenshots table — so refreshing a row that is
already `completed` can never produce a second `after` screenshot row. -/
theorem c7_after_capture_iff (db : DB) (oid : Nat) (s : String)
    (charge : Option Int) (old : ExecRecord)
    (hfind : db.execution_history.find? (fun r => r.jap_order_id = oid) =
      some old) :
    ((refresh_execution_status db oid (.ok s charge)).capture_initiated = true ↔
      (old.status ≠ "completed" ∧ lowerStr s = "completed" ∧
       ¬ ∃ sc ∈ db.screenshots, sc.execution_id = old.id ∧
         sc.screenshot_type = "after" ∧ sc.status = "completed")) ∧
    (refresh_execution_status db oid (.ok s charge)).db.screenshots =
      db.screenshots := by
  unfold refresh_execution_status
  simp only [hfind]
  refine ⟨?_, by simp⟩
  by_cases h1 : old.status = "completed" <;>
    by_cases h2 : lowerStr s = "completed" <;>
      simp [h1, h2, List.any_eq_true, not_exists]

/-- Witness: refreshing the pending execution to `Completed` initiates the
capture, there being no prior `after` screenshot. -/
theorem c7_after_capture_iff_witness :
    ((refresh_execution_status c7_db 42
        (JapStatusResp.ok "Completed" (some 2))).capture_initiated = true ↔
      (c7_exec.status ≠ "completed" ∧ lowerStr "Completed" = "completed" ∧
       ¬ ∃ sc ∈ c7_db.screenshots, sc.execution_id = c7_exec.id ∧
         sc.screenshot_type = "after" ∧ sc.status = "completed")) ∧
    (refresh_execution_status c7_db 42
        (JapStatusResp.ok "Completed" (some 2))).db.screenshots =
      c7_db.screenshots :=
  c7_after_capture_iff c7_db 42 "Completed" (some 2) c7_exec (by decide)

/-- The post-execution bookkeeping UPDATE on `processed_posts` does not
change any ledger key. -/
theorem ledger_keys_update (l : List PPRow) (fid : Nat) (g : String)
    (t : Nat) :
    ledger_keys (l.map fun r =>
      if decide (r.feed_id = fid) && decide (r.post_guid = g) then
        { r with actions_triggered := t }
      else r) = ledger_keys l := by
  unfold ledger_keys
  rw [List.map_map]
  congr 1
  funext r
  show ((if _ then _ else r).feed_id, (if _ then _ else r).post_guid) = _
  split <;> rfl

/-- A key is absent from the ledger exactly when the claim test fails. -/
theorem not_mem_of_not_claimed {l : List PPRow} {fid : Nat} {g : String}
    (h : ledger_claimed l fid g = false) : (fid, g) ∉ ledger_keys l := by
  intro hmem
  obtain ⟨r, hr, hk⟩ := List.mem_map.mp hmem
  rw [ledger_claimed, List.any_eq_false] at h
  refine h r hr ?_
  obtain ⟨h1, h2⟩ := Prod.mk.injEq _ _ _ _ ▸ hk
  simp [h1, h2]

/-- One per-post step preserves ledger-key uniqueness. -/
theorem process_post_ledger_unique (env : Env) (accounts : List Account)
    (actions : List ActionRec) (feed : FeedRec) (st : FeedPollState)
    (post : Post) (h : ledger_unique st.processed) :
    ledger_unique (process_post env accounts actions feed st post).processed := by
  unfold process_post
  by_cases h0 : post_guid_of post = ""
  · simpa [h0] using h
  · by_cases h1 : ledger_claimed st.processed feed.id (post_guid_of post) = true
    · simpa [h0, h1] using h
    · rw [Bool.not_eq_true] at h1
      simp only [h0, h1, if_neg, if_false, Bool.false_eq_true]
      unfold ledger_unique
      rw [ledger_keys_update, ledger_keys, List.map_append, ← ledger_keys,
        List.nodup_append]
      refine ⟨h, List.nodup_singleton _, ?_⟩
      simp only [List.map_cons, List.map_nil]
      rw [List.disjoint_singleton]
      exact not_mem_of_not_claimed h1

/-- The per-post fold preserves ledger-key uniqueness from any starting
state. -/
theorem foldl_process_post_ledger_unique (env : Env)
    (accounts : List Account) (actions : List ActionRec) (feed : FeedRec) :
    ∀ (ps : List Post) (st : FeedPollState), ledger_unique st.processed →
      ledger_unique
        (ps.foldl (process_post env accounts actions feed) st).processed := by
  intro ps
  induction ps with
  | nil => intro st hst; exact hst
  | cons p pt ih =>
    intro st hst
    exact ih _ (process_post_ledger_unique env accounts actions feed st p hst)

/-- The whole per-feed post loop preserves ledger-key uniqueness. -/
theorem poll_fold_ledger_unique (env : Env) (db : DB) (feed : FeedRec)
    (raw : List RawItem) (h : ledger_unique db.processed_posts) :
    ledger_unique (poll_fold env db feed raw).processed := by
  unfold poll_fold
  apply foldl_process_post_ledger_unique
  exact h

/-- A successful single-feed poll preserves ledger-key uniqueness. -/
theorem poll_single_feed_ledger_unique (env : Env) (db : DB) (feed : FeedRec)
    (db' : DB) (r : FeedResult)
    (h : poll_single_feed env db feed = .ok (db', r))
    (hu : ledger_unique db.processed_posts) :
    ledger_unique db'.processed_posts := by
  unfold poll_single_feed at h
  split at h
  · exact absurd h (by simp)
  · split at h
    · exact absurd h (by simp)
    · rename_i u hu2 raw hraw
      rw [Except.ok.injEq] at h
      have hp := congrArg (fun x => x.1.processed_posts) h
      dsimp only at hp
      rw [← hp]
      exact poll_fold_ledger_unique env db feed raw hu

/-- One step of the feed loop preserves ledger-key uniqueness. -/
theorem poll_all_step_ledger_unique (env : Env) (acc : DB × PollSummary)
    (feed : FeedRec) (hu : ledger_unique acc.1.processed_posts) :
    ledger_unique (poll_all_step env acc feed).1.processed_posts := by
  unfold poll_all_step
  cases hpoll : poll_single_feed env acc.1 feed with
  | ok x =>
    obtain ⟨db', r⟩ := x
    simp only [hpoll]
    exact poll_single_feed_ledger_unique env acc.1 feed db' r hpoll hu
  | error e =>
    simp only [hpoll]
    exact hu

/-- A whole `poll_all_feeds` cycle preserves ledger-key uniqueness. -/
theorem poll_all_feeds_ledger_unique (env : Env) (db : DB)
    (hu : ledger_unique db.processed_posts) :
    ledger_unique (poll_all_feeds env db).1.processed_posts := by
  unfold poll_all_feeds
  generalize selected_feeds db = feeds
  have : ∀ (fs : List FeedRec) (acc : DB × PollSummary),
      ledger_unique acc.1.processed_posts →
      ledger_unique ((fs.foldl (poll_all_step env) acc)).1.processed_posts := by
    intro fs
    induction fs with
    | nil => intro acc hacc; exact hacc
    | cons f ft ih =>
      intro acc hacc
      exact ih _ (poll_all_step_ledger_unique env acc f hacc)
  exact this feeds _ hu

/-- Any sequence of poll cycles preserves ledger-key uniqueness. -/
theorem run_polls_ledger_unique (envs : List Env) (db : DB)
    (hu : ledger_unique db.processed_posts) :
    ledger_unique (run_polls envs db).processed_posts := by
  induction envs generalizing db with
  | nil => exact hu
  | cons e et ih =>
    exact ih _ (poll_all_feeds_ledger_unique e db hu)

/-- With unique ledger keys, at most one row matches any key. -/
theorem count_rows_le_one_of_nodup {l : List PPRow} (h : ledger_unique l)
    (fid : Nat) (g : String) : count_rows l fid g ≤ 1 := by
  induction l with
  | nil => exact Nat.le_succ 0
  | cons r t ih =>
    unfold ledger_unique ledger_keys at h
    rw [List.map_cons, List.nodup_cons] at h
    obtain ⟨hnm, ht⟩ := h
    unfold count_rows
    rw [List.filter_cons]
    by_cases hc : (decide (r.feed_id = fid) && decide (r.post_guid = g)) = true
    · rw [if_pos hc]
      rw [Bool.and_eq_true, decide_eq_true_eq, decide_eq_true_eq] at hc
      have h0 : t.filter
          (fun x => decide (x.feed_id = fid) && decide (x.post_guid = g)) = [] := by
        rw [List.filter_eq_nil_iff]
        intro x hx hpx
        rw [Bool.and_eq_true, decide_eq_true_eq, decide_eq_true_eq] at hpx
        refine hnm ?_
        rw [hc.1, hc.2, ← hpx.1, ← hpx.2]
        exact List.mem_map_of_mem (fun r => (r.feed_id, r.post_guid)) hx
      rw [List.length_cons, h0]
      exact Nat.le_refl 1
    · rw [if_neg hc]
      exact ih ht

/-- One per-post step never decreases the latest-post-date accumulator. -/
theorem process_post_latest_mono (env : Env) (accounts : List Account)
    (actions : List ActionRec) (feed : FeedRec) (st : FeedPollState)
    (post : Post) :
    st.latest_post_date ≤
      (process_post env accounts actions feed st post).latest_post_date := by
  unfold process_post
  by_cases h0 : post_guid_of post = ""
  · simp [h0]
  · by_cases h1 : ledger_claimed st.processed feed.id (post_guid_of post) = true
    · simp [h0, h1]
    · rw [Bool.not_eq_true] at h1
      simp only [h0, h1, if_neg, Bool.false_eq_true, if_false]
      cases hdp : post.date_published with
      | none => simp [hdp]
      | some d =>
        simp only [hdp]
        split
        · next hlt => exact le_of_lt hlt
        · exact le_refl _

/-- The per-post fold never decreases the latest-post-date accumulator. -/
theorem foldl_process_post_latest_mono (env : Env) (accounts : List Account)
    (actions : List ActionRec) (feed : FeedRec) :
    ∀ (ps : List Post) (st : FeedPollState),
      st.latest_post_date ≤
        (ps.foldl (process_post env accounts actions feed)
          st).latest_post_date := by
  intro ps
  induction ps with
  | nil => intro st; exact le_refl _
  | cons p pt ih =>
    intro st
    exact le_trans
      (process_post_latest_mono env accounts actions feed st p) (ih _)

/-- The per-feed loop starts the accumulator at the watermark filter date,
so it ends at or above it. -/
theorem poll_fold_latest_ge_since (env : Env) (db : DB) (feed : FeedRec)
    (raw : List RawItem) :
    poll_since_date env feed ≤ (poll_fold env db feed raw).latest_post_date :=
  foldl_process_post_latest_mono env db.accounts db.actions feed _ _

/-- `find?` commutes with mapping a function that does not change the
tested predicate. -/
theorem find?_map_of_pred_eq {α : Type} (l : List α) (upd : α → α)
    (p : α → Bool) (h : ∀ x, p (upd x) = p x) :
    (l.map upd).find? p = (l.find? p).map upd := by
  rw [List.find?_map]
  have hpe : p ∘ upd = p := funext h
  rw [hpe]

/-- C8: over one `poll_single_feed` cycle, the feed watermark is
monotone — whenever the stored watermark was `some d` before the cycle it
is `some e` with `d ≤ e` afterwards; when the cycle accepted zero
truly-new posts the watermark is left untouched; and the watermark of
every other feed row is untouched.  The hypothesis ties the `feed`
argument to its stored row, as `poll_all_feeds` does. -/
theorem c8_watermark_monotone (env : Env) (db : DB) (feed : FeedRec)
    (db' : DB) (r : FeedResult)
    (h : poll_single_feed env db feed = .ok (db', r))
    (hstored : feed_watermark db feed.id = feed.last_post_date) :
    (∀ d, feed_watermark db feed.id = some d →
      ∃ e, feed_watermark db' feed.id = some e ∧ d ≤ e) ∧
    (r.new_posts = 0 →
      feed_watermark db' feed.id = feed_watermark db feed.id) ∧
    (∀ fid, fid ≠ feed.id →
      feed_watermark db' fid = feed_watermark db fid) := by
  unfold poll_single_feed at h
  split at h
  · exact absurd h (by simp)
  · split at h
    · exact absurd h (by simp)
    · rename_i u hu2 raw hraw
      rw [Except.ok.injEq] at h
      have hfeeds : db'.rss_feeds =
          advance_feed_rows env feed (poll_fold env db feed raw).truly_new
            (poll_fold env db feed raw).latest_post_date db.rss_feeds := by
        have hh := congrArg (fun x => x.1.rss_feeds) h
        dsimp only at hh
        rw [← hh]
        rfl
      have hnew : r.new_posts = (poll_fold env db feed raw).truly_new := by
        have hh := congrArg (fun x => x.2.new_posts) h
        dsimp only at hh
        rw [← hh]
        rfl
      unfold advance_feed_rows at hfeeds
      by_cases htn : (poll_fold env db feed raw).truly_new > 0
      · rw [if_pos htn] at hfeeds
        refine ⟨?_, ?_, ?_⟩
        · intro d hd
          have hlp : feed.last_post_date = some d := by rw [← hstored, hd]
          have hsince : poll_since_date env feed = d := by
            unfold poll_since_date
            rw [hlp]
          unfold feed_watermark at hd ⊢
          rw [hfeeds, find?_map_of_pred_eq _ _ _ (fun f => by split <;> rfl)]
          cases hfind : db.rss_feeds.find? fun f => f.id = feed.id with
          | none =>
            rw [hfind] at hd
            exact Option.noConfusion hd
          | some f0 =>
            have hf0id : f0.id = feed.id := by
              have hps := List.find?_some hfind
              simpa using hps
            refine ⟨(poll_fold env db feed raw).latest_post_date + 1, ?_, ?_⟩
            · simp [Option.map, hf0id]
            · have hmon := poll_fold_latest_ge_since env db feed raw
              rw [hsince] at hmon
              exact le_trans hmon (by omega)
        · intro h0
          rw [hnew] at h0
          omega
        · intro fid hne
          unfold feed_watermark
          rw [hfeeds, find?_map_of_pred_eq _ _ _ (fun f => by split <;> rfl)]
          cases hfind : db.rss_feeds.find? fun f => f.id = fid with
          | none => rfl
          | some f0 =>
            have hf0id : f0.id = fid := by
              have hps := List.find?_some hfind
              simpa using hps
            simp [Option.map, hf0id, hne]
      · rw [if_neg htn] at hfeeds
        have hsame : ∀ fid : Nat,
            feed_watermark db' fid = feed_watermark db fid := by
          intro fid
          unfold feed_watermark
          rw [hfeeds, find?_map_of_pred_eq _ _ _ (fun f => by split <;> rfl)]
          cases hfind : db.rss_feeds.find? fun f => f.id = fid with
          | none => rfl
          | some f0 =>
            by_cases hid : f0.id = feed.id
            · simp [Option.map, hid]
            · simp [Option.map, hid]
        refine ⟨?_, fun _ => hsame feed.id, fun fid _ => hsame fid⟩
        intro d hd
        exact ⟨d, by rw [hsame feed.id, hd], le_refl d⟩

/-- Witness: in the scenario cycle the watermark moves from `some 1000` to
`some e` with `1000 ≤ e`. -/
theorem c8_watermark_monotone_witness :
    feed_watermark s8_db 1 = some 1000 ∧
    ∃ e, feed_watermark s8_db_after 1 = some e ∧ (1000 : Int) ≤ e :=
  ⟨by decide,
   (c8_watermark_monotone s8_env s8_db s8_feed s8_db_after s8_result
     (by rfl) (by decide)).1 1000 (by decide)⟩

/-- Folding the latest-post search from `some m` stays `some` and never
decreases. -/
theorem latest_fold_some (items : List Post) :
    ∀ m : Int, ∃ n, items.foldl latest_step (some m) = some n ∧ m ≤ n := by
  induction items with
  | nil => intro m; exact ⟨m, rfl, le_refl m⟩
  | cons it t ih =>
    intro m
    cases hdp : it.pub_date with
    | none =>
      have hstep : latest_step (some m) it = some m := by
        unfold latest_step
        rw [hdp]
      rw [List.foldl_cons, hstep]
      exact ih m
    | some d =>
      have hstep : latest_step (some m) it =
          if m < d then some d else some m := by
        unfold latest_step
        rw [hdp]
      rw [List.foldl_cons, hstep]
      by_cases hmd : m < d
      · rw [if_pos hmd]
        obtain ⟨n, h1, h2⟩ := ih d
        exact ⟨n, h1, le_trans (le_of_lt hmd) h2⟩
      · rw [if_neg hmd]
        exact ih m

/-- Any parseable date of a member bounds the latest-post search from
below, from any accumulator. -/
theorem latest_fold_ge_mem (items : List Post) (p : Post) (d : Int) :
    p ∈ items → p.pub_date = some d →
    ∀ acc : Option Int, ∃ n, items.foldl latest_step acc = some n ∧ d ≤ n := by
  induction items with
  | nil => intro hp; cases hp
  | cons it t ih =>
    intro hp hd acc
    rcases List.mem_cons.mp hp with rfl | hmem
    · have hstep : ∃ a, latest_step acc p = some a ∧ d ≤ a := by
        cases acc with
        | none =>
          refine ⟨d, ?_, le_refl d⟩
          unfold latest_step
          rw [hd]
        | some m =>
          have hs : latest_step (some m) p =
              if m < d then some d else some m := by
            unfold latest_step
            rw [hd]
          by_cases hmd : m < d
          · exact ⟨d, by rw [hs, if_pos hmd], le_refl d⟩
          · exact ⟨m, by rw [hs, if_neg hmd], le_of_not_lt hmd⟩
      obtain ⟨a, ha, hda⟩ := hstep
      rw [List.foldl_cons, ha]
      obtain ⟨n, h1, h2⟩ := latest_fold_some t a
      exact ⟨n, h1, le_trans hda h2⟩
    · rw [List.foldl_cons]
      exact ih hmem hd _

/-- No feed item is strictly newer than the stored baseline watermark. -/
theorem get_new_posts_baseline_empty (env : Env) (raw : List RawItem) :
    get_new_posts_from_xml_feed raw (baseline_watermark env raw) = [] := by
  unfold get_new_posts_from_xml_feed baseline_watermark
  rw [List.filter_eq_nil_iff]
  intro p hp
  cases hdp : p.pub_date with
  | none => simp [hdp]
  | some d =>
    simp only [hdp]
    obtain ⟨n, h1, h2⟩ :=
      latest_fold_ge_mem (parse_rss_xml_feed raw) p d hp hdp none
    unfold latest_parseable_date
    rw [h1]
    simp
    omega

/-- A poll over a feed whose watermark already dominates every item's
publish date reports the total item count but zero new posts. -/
theorem poll_after_baseline (env' : Env) (db1 : DB) (feed : FeedRec)
    (u : String) (raw : List RawItem) (base : Int)
    (hafu : account_feed_url db1 feed = some u)
    (hfetch' : env'.fetch u = some raw)
    (hwm : feed.last_post_date = some base)
    (hempty : get_new_posts_from_xml_feed raw base = []) :
    after_result (poll_single_feed env' db1 feed) =
      some { feed_id := feed.id,
             posts_found := (parse_rss_xml_feed raw).length,
             new_posts := 0, actions_triggered := 0,
             status := "no_new_posts" } := by
  have hsince : poll_since_date env' feed = base := by
    unfold poll_since_date
    rw [hwm]
  have hst : poll_fold env' db1 feed raw =
      { processed := db1.processed_posts, history := db1.execution_history,
        next_exec_id := db1.next_exec_id, truly_new := 0,
        actions_triggered := 0, latest_post_date := base } := by
    unfold poll_fold
    rw [hsince]
    dsimp only
    rw [hempty]
    rfl
  have hcore : (poll_single_feed_core env' db1 feed raw).2 =
      { feed_id := feed.id,
        posts_found := (parse_rss_xml_feed raw).length,
        new_posts := 0, actions_triggered := 0,
        status := "no_new_posts" } := by
    unfold poll_single_feed_core
    rw [hst]
    rfl
  unfold poll_single_feed
  simp only [hafu, hfetch']
  unfold after_result
  exact congrArg some hcore

/-- C6: `establish_baseline_for_account` stores the maximum parseable
publish date of the feed — or "now" when there is none — as both the
account watermark and the watermark of every feed row bound to the
account; consequently a `poll_single_feed` run on the baselined feed, with
the feed content unchanged, still counts all N items but reports zero new
posts (`status = no_new_posts`), so no pre-existing post ever triggers. -/
theorem c6_baseline_suppression (env env' : Env) (db : DB)
    (account : Account) (u : String) (raw : List RawItem)
    (hfind : db.accounts.find? (fun a => a.id = account.id) = some account)
    (hurl : account.rss_feed_url = some u) (hu : u ≠ "")
    (hfetch : env.fetch u = some raw) (hfetch' : env'.fetch u = some raw) :
    (establish_baseline_for_account env db account.id).1.accounts =
      (db.accounts.map fun a =>
        if a.id = account.id then
          { a with rss_last_post := some (baseline_watermark env raw),
                   rss_last_check := some env.now }
        else a) ∧
    (establish_baseline_for_account env db account.id).1.rss_feeds =
      (db.rss_feeds.map fun f =>
        if f.account_id = some account.id then
          { f with last_post_date := some (baseline_watermark env raw),
                   last_checked := some env.now }
        else f) ∧
    (∀ feed : FeedRec, feed.account_id = some account.id →
      feed.last_post_date = some (baseline_watermark env raw) →
      after_result (poll_single_feed env'
          (establish_baseline_for_account env db account.id).1 feed) =
        some { feed_id := feed.id,
               posts_found := (parse_rss_xml_feed raw).length,
               new_posts := 0, actions_triggered := 0,
               status := "no_new_posts" }) := by
  have hA : (establish_baseline_for_account env db account.id).1.accounts =
      (db.accounts.map fun a =>
        if a.id = account.id then
          { a with rss_last_post := some (baseline_watermark env raw),
                   rss_last_check := some env.now }
        else a) := by
    unfold establish_baseline_for_account
    simp only [hfind, hurl, Option.getD_some, if_neg hu, hfetch]
    cases hlat : latest_parseable_date (parse_rss_xml_feed raw) with
    | none =>
      have hbw : baseline_watermark env raw = env.now := by
        unfold baseline_watermark
        rw [hlat]
        rfl
      simp [hbw]
    | some d =>
      have hbw : baseline_watermark env raw = d := by
        unfold baseline_watermark
        rw [hlat]
        rfl
      simp [hbw]
  have hB : (establish_baseline_for_account env db account.id).1.rss_feeds =
      (db.rss_feeds.map fun f =>
        if f.account_id = some account.id then
          { f with last_post_date := some (baseline_watermark env raw),
                   last_checked := some env.now }
        else f) := by
    unfold establish_baseline_for_account
    simp only [hfind, hurl, Option.getD_some, if_neg hu, hfetch]
    cases hlat : latest_parseable_date (parse_rss_xml_feed raw) with
    | none =>
      have hbw : baseline_watermark env raw = env.now := by
        unfold baseline_watermark
        rw [hlat]
        rfl
      simp [hbw]
    | some d =>
      have hbw : baseline_watermark env raw = d := by
        unfold baseline_watermark
        rw [hlat]
        rfl
      simp [hbw]
  refine ⟨hA, hB, ?_⟩
  intro feed hacc hwm
  refine poll_after_baseline env' _ feed u raw (baseline_watermark env raw)
    ?_ hfetch' hwm (get_new_posts_baseline_empty env raw)
  unfold account_feed_url
  simp only [hacc]
  rw [hA, find?_map_of_pred_eq _ _ _ (fun a => by split <;> rfl), hfind]
  simp [hurl, hu]

/-- Witness: baselining the scenario account stores the item's publish
date 1010 as the feed watermark, and a subsequent poll over the unchanged
feed reports one item seen but zero new posts. -/
theorem c6_baseline_suppression_witness :
    (establish_baseline_for_account s8_env s8_db 1).1.rss_feeds =
      [{ id := 1, account_id := some 1, title := "alice feed",
         rss_feed_url := "F", last_checked := some 2000,
         last_post_date := some 1010 }] ∧
    after_result (poll_single_feed s8_env
        (establish_baseline_for_account s8_env s8_db 1).1 c6_feed) =
      some { feed_id := 1, posts_found := 1, new_posts := 0,
             actions_triggered := 0, status := "no_new_posts" } :=
  ⟨(c6_baseline_suppression s8_env s8_env s8_db s8_account "F" [s8_item]
      (by decide) rfl (by decide) (by decide) (by decide)).2.1,
   (c6_baseline_suppression s8_env s8_env s8_db s8_account "F" [s8_item]
      (by decide) rfl (by decide) (by decide) (by decide)).2.2 c6_feed
     (by decide) (by decide)⟩

/-- C1: the ProcessedPost ledger gives at-most-once semantics — starting
from a ledger with unique `(feed_id, post_guid)` keys, any number of
`poll_all_feeds` cycles leaves at most one ledger row per (feed, item
identity) pair; and when a post's key is already claimed in the ledger,
the per-post step is a silent no-op: the INSERT conflict leaves the whole
processing state — ledger, execution history, counters — unchanged, so
the item triggers no actions. -/
theorem c1_at_most_once :
    (∀ (envs : List Env) (db : DB), ledger_unique db.processed_posts →
      ∀ (fid : Nat) (g : String),
        count_rows (run_polls envs db).processed_posts fid g ≤ 1) ∧
    (∀ (env : Env) (accounts : List Account) (actions : List ActionRec)
        (feed : FeedRec) (st : FeedPollState) (post : Post),
      ledger_claimed st.processed feed.id (post_guid_of post) = true →
      process_post env accounts actions feed st post = st) := by
  constructor
  · intro envs db hu fid g
    exact count_rows_le_one_of_nodup (run_polls_ledger_unique envs db hu) fid g
  · intro env accounts actions feed st post h1
    unfold process_post
    by_cases h0 : post_guid_of post = ""
    · simp [h0]
    · simp [h0, h1]

/-- Witness: two full poll cycles over the scenario state leave one row
for item `G1`, and re-processing the already-claimed post `G0` leaves the
mid-cycle state untouched. -/
theorem c1_at_most_once_witness :
    count_rows (run_polls [s8_env, s8_env] s8_db).processed_posts 1 "G1" ≤ 1 ∧
    process_post plain_env [s8_account] [s8_action] s8_feed mid_state
      claimed_post = mid_state :=
  ⟨c1_at_most_once.1 [s8_env, s8_env] s8_db List.nodup_nil 1 "G1",
   c1_at_most_once.2 plain_env [s8_account] [s8_action] s8_feed mid_state
     claimed_post (by decide)⟩

end Japdash
